import Mathlib

/-!
Shallow embedding of src/python/transcriber.py (the EchoScribe transcription
backend).  Message emission is modelled as explicit event traces; `sys.exit`,
uncaught Python exceptions and ordinary returns are modelled by the `FOut`
outcome type.  External collaborators (psutil/pynvml, FFmpeg, faster-whisper,
the OpenAI client, huggingface_hub, the filesystem and the wall clock) are
oracles supplied through environment records; everything else follows the
source line by line.  The source defines `get_system_stats` and
`send_progress` twice; the later definitions (lines 171-189 and 192-214)
shadow the earlier ones and are the ones modelled here.
-/

namespace EchoScribe

/-- The two stage strings that occur in the source. -/
inductive Stage where
  | extracting
  | transcribing
deriving DecidableEq, Repr

/-- The system-statistics dictionary built by `get_system_stats`
(transcriber.py lines 171-189); psutil and pynvml report byte counts. -/
structure Stats where
  ram_used : ℕ
  ram_total : ℕ
  vram_used : ℕ
  vram_total : ℕ
deriving DecidableEq, Repr

/-- Oracle for the psutil / pynvml collaborators used by `get_system_stats`. -/
structure SysEnv where
  has_psutil : Bool
  ram_used : ℕ
  ram_total : ℕ
  has_nvml : Bool
  nvml_ok : Bool
  vram_used : ℕ
  vram_total : ℕ
deriving Repr

/-- `get_system_stats` (transcriber.py lines 171-189, the second, shadowing
definition).  When psutil failed to import, the bare reference to `psutil`
raises NameError, modelled as `none`; an nvml failure is swallowed by the
inner `except` and leaves the vram entries at 0.  The returned dictionary
always has four keys, so it is never empty. -/
def get_system_stats (env : SysEnv) : Option Stats :=
  if env.has_psutil then
    some { ram_used := env.ram_used
           ram_total := env.ram_total
           vram_used := if env.has_nvml && env.nvml_ok then env.vram_used else 0
           vram_total := if env.has_nvml && env.nvml_ok then env.vram_total else 0 }
  else none

/-- Identities of the progress / download message strings of the source
(one constructor per distinct string literal). -/
inductive MsgText where
  | demarrage
  | extractionEnCours
  | extractionTerminee
  | chargementModele (model : String)
  | gpuNonDisponible
  | erreurGpu
  | transcriptionEnCours
  | transcriptionAvancement (done : ℤ) (total : ℤ)
  | connexionApi
  | envoiFichier
  | transcriptionCloud
  | transcriptionTermineeCloud
  | transcriptionTermineeFinale
  | preparationTelechargement
  | connexionHuggingFace
  | telechargementFichiers
  | telechargementTermine
  | verificationModele
  | modelePret
  | modeleTelechargeVerificationIgnoree
deriving DecidableEq, Repr

/-- Identities of the `send_error` call sites of the source
(one constructor per distinct error string). -/
inductive ErrMsg where
  | huggingfaceHubNonInstalle
  | erreurTelechargement (s : String)
  | erreurInattendue
  | ffmpegNonInstalle
  | erreurExtraction (diag : List Char)
  | erreurExtractionException
  | fasterWhisperNonInstalle
  | openaiNonInstalle
  | fichierTropVolumineux
  | cleApiInvalide
  | limiteRequetes
  | quotaInsuffisant
  | erreurApiOpenai (s : String)
  | aucunFichier
  | aucunMode
  | fichierInexistant (f : String)
  | formatNonSupporte (ext : String)
  | cleApiRequise
deriving DecidableEq, Repr

/-- A segment record as placed in a result message by the cloud path
(transcriber.py lines 701-708): start, end, text; note there is no id. -/
structure CloudSeg where
  start : ℚ
  stop : ℚ
  text : String
deriving DecidableEq, Repr

/-- The metrics dictionary attached to a local result
(transcriber.py lines 641-645). -/
structure Metrics where
  duration : ℚ
  processing_time : ℚ
  speed_factor : ℚ
deriving DecidableEq, Repr

/-- One JSON object written to stdout, tagged by its `type` field. -/
inductive Msg where
  | progress (progress : ℤ) (message : MsgText) (stage : Stage)
      (speed : Option ℚ) (etr : Option ℚ) (system_stats : Option Stats)
  | segment (id : ℕ) (start : ℚ) (stop : ℚ) (text : String)
  | result (text : String) (segments : List CloudSeg) (detected_language : String)
      (metrics : Metrics)
  | error (message : ErrMsg)
  | models_list
  | download_progress (model : String) (progress : ℤ) (message : MsgText)
  | download_complete (model : String)
deriving DecidableEq, Repr

/-- An observable step of a run: a message emitted on stdout, or the single
blocking network call the cloud path makes (`client.audio.*.create`). -/
inductive Event where
  | emit (m : Msg)
  | networkCall
deriving DecidableEq, Repr

/-- Outcome of a modelled Python function: an ordinary return, a SystemExit
raised by `sys.exit` inside `send_error`, or an uncaught exception. -/
inductive FOut (α : Type) where
  | ret (a : α)
  | exit (code : ℕ)
  | exn
deriving DecidableEq, Repr

/-- `send_progress` (transcriber.py lines 192-214, the second, shadowing
definition).  The `speed` and `etr` keys are added exactly when the
corresponding arguments are not None; `get_system_stats` is called inside
`try/except` and its result attached when it did not raise (its dictionary
always has four keys, so the `if stats:` truthiness test always passes);
exactly one line is printed. -/
def send_progress (env : SysEnv) (progress : ℤ) (message : MsgText) (stage : Stage)
    (speed : Option ℚ) (etr : Option ℚ) : List Event :=
  [Event.emit (Msg.progress progress message stage speed etr (get_system_stats env))]

/-- `send_download_progress` (transcriber.py lines 248-256). -/
def send_download_progress (model : String) (progress : ℤ) (message : MsgText) :
    List Event :=
  [Event.emit (Msg.download_progress model progress message)]

/-- Python `int()` truncation toward zero, applied to a rational. -/
def pyTrunc (q : ℚ) : ℤ := if 0 ≤ q then ⌊q⌋ else -⌊-q⌋

/-- Rounding to the nearest integer with ties to even, as Python `round`. -/
def roundHalfEven (q : ℚ) : ℤ :=
  if q - ⌊q⌋ < 1 / 2 then ⌊q⌋
  else if 1 / 2 < q - ⌊q⌋ then ⌊q⌋ + 1
  else if ⌊q⌋ % 2 = 0 then ⌊q⌋ else ⌊q⌋ + 1

/-- Python `round(q, ndigits)` on a rational value. -/
def pyRound (q : ℚ) (ndigits : ℕ) : ℚ :=
  (roundHalfEven (q * 10 ^ ndigits) : ℚ) / 10 ^ ndigits

/-- Does the character list start with the given pattern? -/
def listStartsWith : List Char → List Char → Bool
  | [], _ => true
  | _ :: _, [] => false
  | a :: as, b :: bs => a == b && listStartsWith as bs

/-- Python `pat in s` substring membership on character lists. -/
def containsSub (pat : List Char) : List Char → Bool
  | [] => listStartsWith pat []
  | c :: rest => listStartsWith pat (c :: rest) || containsSub pat rest

/-- The FFmpeg diagnostic classification of transcriber.py line 437: the
stderr text is searched for the substring "not recognized", and its
lowercased form for the substring "not found". -/
def ffmpegMissingDiag (diag : List Char) : Bool :=
  containsSub ("not recognized".toList) diag ||
    containsSub ("not found".toList) (diag.map Char.toLower)

/-- Index of the last dot in a character list, if any. -/
def lastDotIdx : List Char → Option ℕ
  | [] => none
  | c :: rest =>
    match lastDotIdx rest with
    | some i => some (i + 1)
    | none => if c = '.' then some 0 else none

/-- The final path component (posix separators), as `pathlib.Path(p).name`. -/
def pathName (p : String) : List Char :=
  (p.toList.splitOn '/').getLastD []

/-- `Path(p).suffix.lower()` (transcriber.py line 785).  CPython returns the
final dotted extension only when the last dot of the name is neither at the
start nor at the very end of the name. -/
def pathSuffixLower (p : String) : String :=
  let name := pathName p
  match lastDotIdx name with
  | some i =>
    if 0 < i && i + 1 < name.length then String.mk ((name.drop i).map Char.toLower)
    else ""
  | none => ""

/-- Supported audio extensions (transcriber.py line 87). -/
def AUDIO_FORMATS : List String := [".mp3", ".wav", ".m4a", ".flac", ".ogg"]

/-- Supported video extensions (transcriber.py line 88). -/
def VIDEO_FORMATS : List String := [".mp4", ".mkv", ".mov", ".avi", ".webm"]

/-- All supported extensions (transcriber.py line 89). -/
def ALL_FORMATS : List String := AUDIO_FORMATS ++ VIDEO_FORMATS

/-- Oracle for one FFmpeg child-process run: success, a nonzero exit with the
given stderr text (`created` records whether the output file had already been
written when the tool failed), a missing binary (FileNotFoundError), or some
other exception from `subprocess`. -/
inductive FfmpegOutcome where
  | ok
  | fail (diag : List Char) (created : Bool)
  | binaryMissing
  | raisedOther
deriving Repr

/-- Result of the modelled `extract_audio`: emitted events, whether the
temporary output file exists afterwards, and the function outcome. -/
structure ExtractRes where
  msgs : List Event
  created : Bool
  out : FOut Bool
deriving Repr

/-- `extract_audio` (transcriber.py lines 405-451).  Every failure path calls
`send_error`, which prints one error object and raises SystemExit(1); the
`return False` statements after those calls are dead code. -/
def extract_audio (env : SysEnv) (ff : FfmpegOutcome) : ExtractRes :=
  let p5 := send_progress env 5 MsgText.extractionEnCours Stage.extracting none none
  match ff with
  | FfmpegOutcome.ok =>
    { msgs := p5 ++ send_progress env 25 MsgText.extractionTerminee Stage.extracting none none
      created := true
      out := FOut.ret true }
  | FfmpegOutcome.fail diag created =>
    if ffmpegMissingDiag diag then
      { msgs := p5 ++ [Event.emit (Msg.error ErrMsg.ffmpegNonInstalle)]
        created := created
        out := FOut.exit 1 }
    else
      { msgs := p5 ++ [Event.emit (Msg.error (ErrMsg.erreurExtraction (diag.take 200)))]
        created := created
        out := FOut.exit 1 }
  | FfmpegOutcome.binaryMissing =>
    { msgs := p5 ++ [Event.emit (Msg.error ErrMsg.ffmpegNonInstalle)]
      created := false
      out := FOut.exit 1 }
  | FfmpegOutcome.raisedOther =>
    { msgs := p5 ++ [Event.emit (Msg.error ErrMsg.erreurExtractionException)]
      created := false
      out := FOut.exit 1 }

/-- The three `--device-mode` values accepted by argparse (line 750). -/
inductive DeviceMode where
  | performance
  | stable
  | compatibility
deriving DecidableEq, Repr

/-- Device and compute type selected from the requested mode
(transcriber.py lines 517-525). -/
def deviceParams : DeviceMode → String × String
  | DeviceMode.performance => ("cuda", "float16")
  | DeviceMode.stable => ("cuda", "int8_float16")
  | DeviceMode.compatibility => ("cpu", "int8")

/-- A timed span produced by the local engine; `stop` is `segment.end`
(`end` is a reserved word in Lean). -/
structure EngineSeg where
  start : ℚ
  stop : ℚ
  text : String
deriving DecidableEq, Repr

/-- Oracle for the faster-whisper / torch collaborators used by
`transcribe_local`: `initOk k` is whether the k-th `WhisperModel` constructor
call of the run succeeds, `elapsedAt k` is the wall time elapsed when the k-th
engine segment is processed, and `totalElapsed` the wall time at loop end. -/
structure LocalEnv where
  fwInstalled : Bool
  torchImported : Bool
  cudaAvailable : Bool
  initOk : ℕ → Bool
  infoLanguage : String
  infoDuration : Option ℚ
  segs : List EngineSeg
  elapsedAt : ℕ → ℚ
  totalElapsed : ℚ

/-- Result of the device selection and model initialization, recording the
events emitted, the sequence of (device, compute_type) pairs attempted, and
the configuration the engine ended up on (or `exn` when initialization
escaped). -/
structure DeviceSel where
  msgs : List Event
  attempts : List (String × String)
  out : FOut (String × String)

/-- Device fallback logic of `transcribe_local` (transcriber.py lines
517-569): pick (device, compute_type) from the requested mode; if torch is
importable and reports CUDA unavailable, drop to ("cpu", "int8") with a
progress message before any attempt; try the `WhisperModel` constructor; on
failure with a CUDA device, emit a progress message and retry on
("cpu", "int8"), and if that also fails, hide CUDA visibility and try
("cpu", "int8") once more with no guard; on failure with a CPU device the
exception is re-raised (line 569). -/
def deviceSelect (env : SysEnv) (le : LocalEnv) (device_mode : DeviceMode) : DeviceSel :=
  let dc := deviceParams device_mode
  let pre :=
    if le.torchImported && (dc.1 == "cuda") && !le.cudaAvailable then
      (send_progress env 32 MsgText.gpuNonDisponible Stage.transcribing none none,
        (("cpu" : String), ("int8" : String)))
    else (([] : List Event), dc)
  let msgs1 := pre.1
  let dc1 := pre.2
  if le.initOk 0 then { msgs := msgs1, attempts := [dc1], out := FOut.ret dc1 }
  else if dc1.1 == "cuda" then
    let msgs2 := msgs1 ++ send_progress env 35 MsgText.erreurGpu Stage.transcribing none none
    if le.initOk 1 then
      { msgs := msgs2, attempts := [dc1, ("cpu", "int8")], out := FOut.ret ("cpu", "int8") }
    else if le.initOk 2 then
      { msgs := msgs2, attempts := [dc1, ("cpu", "int8"), ("cpu", "int8")],
        out := FOut.ret ("cpu", "int8") }
    else
      { msgs := msgs2, attempts := [dc1, ("cpu", "int8"), ("cpu", "int8")], out := FOut.exn }
  else { msgs := msgs1, attempts := [dc1], out := FOut.exn }

/-- Per-segment progress value (transcriber.py lines 609-610):
`40 + int((segment.end / total_duration) * 55)` clamped to at most 95. -/
def segmentProgress (segEnd total_duration : ℚ) : ℤ :=
  min (40 + pyTrunc (segEnd / total_duration * 55)) 95

/-- Per-segment speed factor and estimated time remaining (transcriber.py
lines 613-624): when elapsed wall time is positive, speed is
`segment.end / elapsed` and the remaining duration is divided by it when it
is positive; otherwise both values are 0. -/
def segmentStats (segEnd total_duration elapsed : ℚ) : ℚ × ℚ :=
  if 0 < elapsed then
    let speed_factor := segEnd / elapsed
    (speed_factor,
      if 0 < speed_factor then (total_duration - segEnd) / speed_factor else 0)
  else (0, 0)

/-- The streaming loop of `transcribe_local` (transcriber.py lines 595-632):
each engine span is emitted immediately as a segment message carrying the
running counter as its id, followed by one progress message whose speed and
etr are rounded to 2 and 0 digits respectively. -/
def localLoop (env : SysEnv) (total_duration : ℚ) (elapsedAt : ℕ → ℚ) :
    ℕ → List EngineSeg → List Event
  | _, [] => []
  | segment_count, s :: rest =>
    let sp := segmentStats s.stop total_duration (elapsedAt segment_count)
    Event.emit (Msg.segment segment_count s.start s.stop s.text) ::
      (send_progress env (segmentProgress s.stop total_duration)
          (MsgText.transcriptionAvancement (pyTrunc s.stop) (pyTrunc total_duration))
          Stage.transcribing (some (pyRound sp.1 2)) (some (pyRound sp.2 0)) ++
        localLoop env total_duration elapsedAt (segment_count + 1) rest)

/-- The 4-tuple returned by `transcribe_local` (transcriber.py line 648). -/
structure TransRet where
  text : String
  segments : List CloudSeg
  detected_language : String
  metrics : Metrics
deriving DecidableEq, Repr

/-- `transcribe_local` (transcriber.py lines 494-648).  `model_name`,
`language`, `translate` and `custom_model_path` are consumed by the engine
oracle and do not change the control flow modelled here.  The total duration
defaults to 1 when `info.duration` is falsy (None or 0, line 592); the
terminal tuple deliberately carries empty text and an empty segment list
(lines 634 and 647-648). -/
def transcribe_local (env : SysEnv) (le : LocalEnv) (model_name : String)
    (language : Option String) (translate : Bool) (custom_model_path : Option String)
    (device_mode : DeviceMode) : List Event × FOut TransRet :=
  if !le.fwInstalled then
    ([Event.emit (Msg.error ErrMsg.fasterWhisperNonInstalle)], FOut.exit 1)
  else
    let m30 := send_progress env 30 (MsgText.chargementModele model_name)
      Stage.transcribing none none
    let ds := deviceSelect env le device_mode
    match ds.out with
    | FOut.exn => (m30 ++ ds.msgs, FOut.exn)
    | FOut.exit c => (m30 ++ ds.msgs, FOut.exit c)
    | FOut.ret _ =>
      let m40 := send_progress env 40 MsgText.transcriptionEnCours Stage.transcribing none none
      let total_duration : ℚ :=
        match le.infoDuration with
        | none => 1
        | some d => if d = 0 then 1 else d
      let loop := localLoop env total_duration le.elapsedAt 0 le.segs
      let avg_speed : ℚ :=
        if 0 < le.totalElapsed then total_duration / le.totalElapsed else 0
      let metrics : Metrics :=
        { duration := pyRound total_duration 2
          processing_time := pyRound le.totalElapsed 2
          speed_factor := pyRound avg_speed 2 }
      (m30 ++ ds.msgs ++ m40 ++ loop,
        FOut.ret { text := "", segments := [], detected_language := le.infoLanguage
                   metrics := metrics })

/-- Oracle for the single OpenAI API call of `transcribe_cloud`: either a
transcript (text, optional detailed segments, optional language attribute) or
an exception whose text matches one of the classified substrings. -/
inductive CloudApi where
  | ok (text : String) (segments : Option (List CloudSeg)) (language : Option String)
  | errInvalidKey
  | errRateLimit
  | errQuota
  | errOther (s : String)
deriving Repr

/-- Oracle for the cloud path: whether the openai package imports, the size
in bytes of the audio file handed to the cloud path, and the API outcome. -/
structure CloudEnv where
  openaiInstalled : Bool
  fileSize : ℕ
  api : CloudApi
deriving Repr

/-- The 3-tuple returned by `transcribe_cloud` (transcriber.py line 713);
unlike the local path it has no metrics component. -/
structure CloudRet where
  text : String
  segments : List CloudSeg
  detected_language : String
deriving DecidableEq, Repr

/-- `transcribe_cloud` (transcriber.py lines 651-727).  The size ceiling is
checked at line 678 before `client.audio.*.create` runs, and `send_error`
raises SystemExit which the surrounding `except Exception` does not catch;
API failures are classified by substring at lines 715-725. -/
def transcribe_cloud (env : SysEnv) (ce : CloudEnv) (api_key : String)
    (language : Option String) (translate : Bool) : List Event × FOut CloudRet :=
  if !ce.openaiInstalled then
    ([Event.emit (Msg.error ErrMsg.openaiNonInstalle)], FOut.exit 1)
  else
    let m30 := send_progress env 30 MsgText.connexionApi Stage.transcribing none none
    let m40 := send_progress env 40 MsgText.envoiFichier Stage.transcribing none none
    if 25 * 1024 * 1024 < ce.fileSize then
      (m30 ++ m40 ++ [Event.emit (Msg.error ErrMsg.fichierTropVolumineux)], FOut.exit 1)
    else
      let m60 := send_progress env 60 MsgText.transcriptionCloud Stage.transcribing none none
      match ce.api with
      | CloudApi.ok text segs lang =>
        let segments := match segs with | some l => l | none => []
        let detected := lang.getD "unknown"
        (m30 ++ m40 ++ m60 ++ [Event.networkCall] ++
            send_progress env 95 MsgText.transcriptionTermineeCloud Stage.transcribing none none,
          FOut.ret { text := text, segments := segments, detected_language := detected })
      | CloudApi.errInvalidKey =>
        (m30 ++ m40 ++ m60 ++
            [Event.networkCall, Event.emit (Msg.error ErrMsg.cleApiInvalide)], FOut.exit 1)
      | CloudApi.errRateLimit =>
        (m30 ++ m40 ++ m60 ++
            [Event.networkCall, Event.emit (Msg.error ErrMsg.limiteRequetes)], FOut.exit 1)
      | CloudApi.errQuota =>
        (m30 ++ m40 ++ m60 ++
            [Event.networkCall, Event.emit (Msg.error ErrMsg.quotaInsuffisant)], FOut.exit 1)
      | CloudApi.errOther s =>
        (m30 ++ m40 ++ m60 ++
            [Event.networkCall, Event.emit (Msg.error (ErrMsg.erreurApiOpenai s))], FOut.exit 1)

/-- Oracle for `download_model`: whether huggingface_hub imports, the result
of `snapshot_download` (local directory on success, `none` when it raised),
and whether the verification load test succeeds. -/
structure DownloadEnv where
  hubInstalled : Bool
  snapshotOk : Option String
  verifyOk : Bool
deriving Repr

/-- `download_model` (transcriber.py lines 337-402).  When
`snapshot_download` raises, the handler `except HfHubHTTPError` at line 396
evaluates a name that is never imported, raising NameError, which the outer
`except Exception` at line 401 catches and converts through `send_error`;
a failed verification load test is swallowed and still reported as success
(lines 384-386). -/
def download_model (de : DownloadEnv) (model_name : String) : List Event × FOut Unit :=
  let d0 := send_download_progress model_name 0 MsgText.preparationTelechargement
  if !de.hubInstalled then
    (d0 ++ [Event.emit (Msg.error ErrMsg.huggingfaceHubNonInstalle)], FOut.exit 1)
  else
    let d5 := send_download_progress model_name 5 MsgText.connexionHuggingFace
    let d10 := send_download_progress model_name 10 MsgText.telechargementFichiers
    match de.snapshotOk with
    | some _ =>
      let d80 := send_download_progress model_name 80 MsgText.telechargementTermine
      let d90 := send_download_progress model_name 90 MsgText.verificationModele
      let d100 :=
        if de.verifyOk then send_download_progress model_name 100 MsgText.modelePret
        else send_download_progress model_name 100 MsgText.modeleTelechargeVerificationIgnoree
      (d0 ++ d5 ++ d10 ++ d80 ++ d90 ++ d100 ++
          [Event.emit (Msg.download_complete model_name)], FOut.ret ())
    | none =>
      (d0 ++ d5 ++ d10 ++ [Event.emit (Msg.error ErrMsg.erreurInattendue)], FOut.exit 1)

/-- The two `--mode` values accepted by argparse (transcriber.py line 734);
`local` is a reserved word in Lean. -/
inductive Mode where
  | localMode
  | cloudMode
deriving DecidableEq, Repr

/-- The parsed command line (transcriber.py lines 732-753). -/
structure Args where
  file : Option String
  mode : Option Mode
  model : String
  custom_model_path : Option String
  api_key : Option String
  language : String
  translate : Bool
  list_models : Bool
  download_model : Option String
  device_mode : DeviceMode

/-- The full oracle environment of one invocation: system statistics, the
system temporary directory, existence of the input file, the FFmpeg outcome,
whether `os.remove` succeeds in the cleanup handler, and the three
collaborator environments. -/
structure World where
  env : SysEnv
  tmpdir : String
  fileExists : Bool
  ffmpeg : FfmpegOutcome
  removeOk : Bool
  de : DownloadEnv
  le : LocalEnv
  ce : CloudEnv

/-- Observable process-level result of one invocation: the exit status,
whether the process died from an uncaught exception (traceback on stderr, no
protocol message), the temporary-audio path computed for a video input, and
whether that temporary file still exists after the process has exited. -/
structure ProcResult where
  exitCode : ℕ
  uncaught : Bool
  tempPath : Option String
  tempExists : Bool
deriving DecidableEq, Repr

/-- `os.path.join` for an absolute head and relative tail on posix. -/
def os_path_join (a b : String) : String := a ++ "/" ++ b

/-- `main` (transcriber.py lines 730-841).  Validation errors each call
`send_error` (exit 1).  For video inputs the fixed temporary path is joined
from the system temp directory (line 803) and `extract_audio` runs at line
805, outside the later `try/finally`, so a SystemExit raised there skips the
cleanup.  The transcription call runs inside `try ... finally` with no
`except` clause: SystemExit and ordinary exceptions pass through after the
cleanup runs.  The terminal result is only sent under `if text:` (line 831),
and the cloud branch unpacks the 3-tuple returned by `transcribe_cloud` into
four names (line 824), which raises ValueError on every normal return. -/
def main (args : Args) (w : World) : List Event × ProcResult :=
  if args.list_models then
    ([Event.emit Msg.models_list],
      { exitCode := 0, uncaught := false, tempPath := none, tempExists := false })
  else
    match args.download_model with
    | some m =>
      let r := download_model w.de m
      match r.2 with
      | FOut.exit c =>
        (r.1, { exitCode := c, uncaught := false, tempPath := none, tempExists := false })
      | _ =>
        (r.1, { exitCode := 0, uncaught := false, tempPath := none, tempExists := false })
    | none =>
      match args.file with
      | none =>
        ([Event.emit (Msg.error ErrMsg.aucunFichier)],
          { exitCode := 1, uncaught := false, tempPath := none, tempExists := false })
      | some file =>
        match args.mode with
        | none =>
          ([Event.emit (Msg.error ErrMsg.aucunMode)],
            { exitCode := 1, uncaught := false, tempPath := none, tempExists := false })
        | some mode =>
          if !w.fileExists then
            ([Event.emit (Msg.error (ErrMsg.fichierInexistant file))],
              { exitCode := 1, uncaught := false, tempPath := none, tempExists := false })
          else
            let file_ext := pathSuffixLower file
            if !(ALL_FORMATS.contains file_ext) then
              ([Event.emit (Msg.error (ErrMsg.formatNonSupporte file_ext))],
                { exitCode := 1, uncaught := false, tempPath := none, tempExists := false })
            else if mode == Mode.cloudMode && args.api_key == none then
              ([Event.emit (Msg.error ErrMsg.cleApiRequise)],
                { exitCode := 1, uncaught := false, tempPath := none, tempExists := false })
            else
              let p0 := send_progress w.env 0 MsgText.demarrage Stage.extracting none none
              let isVideo := VIDEO_FORMATS.contains file_ext
              let temp_audio :=
                if isVideo then some (os_path_join w.tmpdir "echoscribe_temp_audio.wav")
                else none
              let ext :=
                if isVideo then extract_audio w.env w.ffmpeg
                else { msgs := [], created := false, out := FOut.ret true }
              match ext.out with
              | FOut.exit c =>
                (p0 ++ ext.msgs,
                  { exitCode := c, uncaught := false, tempPath := temp_audio
                    tempExists := ext.created })
              | FOut.exn =>
                (p0 ++ ext.msgs,
                  { exitCode := 1, uncaught := true, tempPath := temp_audio
                    tempExists := ext.created })
              | FOut.ret _ =>
                let language := if args.language == "auto" then none else some args.language
                let tr : List Event × FOut TransRet :=
                  if mode == Mode.localMode then
                    transcribe_local w.env w.le args.model language args.translate
                      args.custom_model_path args.device_mode
                  else
                    let rc := transcribe_cloud w.env w.ce (args.api_key.getD "")
                      language args.translate
                    match rc.2 with
                    | FOut.ret _ => (rc.1, FOut.exn)
                    | FOut.exit c => (rc.1, FOut.exit c)
                    | FOut.exn => (rc.1, FOut.exn)
                let cleanedExists := ext.created && !w.removeOk
                match tr.2 with
                | FOut.ret r =>
                  if r.text == "" then
                    (p0 ++ ext.msgs ++ tr.1,
                      { exitCode := 0, uncaught := false, tempPath := temp_audio
                        tempExists := cleanedExists })
                  else
                    (p0 ++ ext.msgs ++ tr.1 ++
                        send_progress w.env 100 MsgText.transcriptionTermineeFinale
                          Stage.transcribing none none ++
                        [Event.emit (Msg.result r.text r.segments r.detected_language r.metrics)],
                      { exitCode := 0, uncaught := false, tempPath := temp_audio
                        tempExists := cleanedExists })
                | FOut.exit c =>
                  (p0 ++ ext.msgs ++ tr.1,
                    { exitCode := c, uncaught := false, tempPath := temp_audio
                      tempExists := cleanedExists })
                | FOut.exn =>
                  (p0 ++ ext.msgs ++ tr.1,
                    { exitCode := 1, uncaught := true, tempPath := temp_audio
                      tempExists := cleanedExists })

/-- Is this event an emitted error message? -/
def isErrorEvent : Event → Bool
  | Event.emit (Msg.error _) => true
  | _ => false

/-- Is this event an emitted result message? -/
def isResultEvent : Event → Bool
  | Event.emit (Msg.result _ _ _ _) => true
  | _ => false

/-- Is this event a terminal message (result or error)? -/
def isTerminalEvent (e : Event) : Bool := isErrorEvent e || isResultEvent e

/-- Number of error messages in a trace. -/
def errorCount (t : List Event) : ℕ := (t.filter isErrorEvent).length

/-- Number of result messages in a trace. -/
def resultCount (t : List Event) : ℕ := (t.filter isResultEvent).length

/-- Number of terminal (result or error) messages in a trace. -/
def terminalCount (t : List Event) : ℕ := (t.filter isTerminalEvent).length

/-- The last event of a trace, if any. -/
def lastEvent (t : List Event) : Option Event := t.reverse.head?

/-- The ids of the segment messages of a trace, in emission order. -/
def segIds (t : List Event) : List ℕ :=
  t.filterMap fun e =>
    match e with
    | Event.emit (Msg.segment i _ _ _) => some i
    | _ => none

/-- Rank of a (device, compute_type) pair in the specified tier order:
Performance = ("cuda", "float16"), Stable = ("cuda", "int8_float16"),
Compatibility = ("cpu", "int8"). -/
def tierIdx (dc : String × String) : ℕ :=
  if dc.1 == "cuda" then (if dc.2 == "float16" then 0 else 1) else 2

/-- The speed field of a progress message. -/
def msgSpeed : Msg → Option ℚ
  | Msg.progress _ _ _ s _ _ => s
  | _ => none

/-- The etr field of a progress message. -/
def msgEtr : Msg → Option ℚ
  | Msg.progress _ _ _ _ e _ => e
  | _ => none

/-- The system_stats field of a progress message. -/
def msgSysStats : Msg → Option Stats
  | Msg.progress _ _ _ _ _ st => st
  | _ => none

/-- A sample statistics environment: psutil present, no NVIDIA library. -/
def ENV0 : SysEnv :=
  { has_psutil := true, ram_used := 4, ram_total := 8, has_nvml := false
    nvml_ok := false, vram_used := 0, vram_total := 0 }

/-- A local-engine environment in which everything succeeds: the model loads
on the first attempt and one span of speech is recognized. -/
def LE_OK : LocalEnv :=
  { fwInstalled := true, torchImported := false, cudaAvailable := false
    initOk := fun _ => true, infoLanguage := "fr", infoDuration := some 10
    segs := [{ start := 0, stop := 5, text := "bonjour" }]
    elapsedAt := fun _ => 2, totalElapsed := 4 }

/-- A local-engine environment in which every `WhisperModel` call fails. -/
def LE_FAIL : LocalEnv :=
  { LE_OK with initOk := fun _ => false }

/-- A local-engine environment with torch reporting CUDA available but every
`WhisperModel` call failing. -/
def LE_GPUFAIL : LocalEnv :=
  { LE_OK with torchImported := true, cudaAvailable := true, initOk := fun _ => false }

/-- A cloud environment in which the API call succeeds on a small file. -/
def CE_OK : CloudEnv :=
  { openaiInstalled := true, fileSize := 1000
    api := CloudApi.ok "hello" (some [{ start := 0, stop := 2, text := "hello" }]) (some "en") }

/-- A download environment in which everything succeeds. -/
def DE0 : DownloadEnv :=
  { hubInstalled := true, snapshotOk := some "/cache", verifyOk := true }

/-- A world in which every collaborator behaves. -/
def W0 : World :=
  { env := ENV0, tmpdir := "/tmp", fileExists := true, ffmpeg := FfmpegOutcome.ok
    removeOk := true, de := DE0, le := LE_OK, ce := CE_OK }

/-- The world `W0` with the local engine failing to initialize. -/
def W_CPUFAIL : World := { W0 with le := LE_FAIL }

/-- The world `W0` with FFmpeg failing after having created its output. -/
def W_FFFAIL : World :=
  { W0 with ffmpeg := FfmpegOutcome.fail ("conversion error in stream 0".toList) true }

/-- A valid local-mode request for an audio file. -/
def A_LOCAL : Args :=
  { file := some "interview.wav", mode := some Mode.localMode, model := "small"
    custom_model_path := none, api_key := none, language := "auto", translate := false
    list_models := false, download_model := none, device_mode := DeviceMode.compatibility }

/-- A valid cloud-mode request for an audio file. -/
def A_CLOUD : Args :=
  { A_LOCAL with
    file := some "talk.wav"
    mode := some Mode.cloudMode
    api_key := some "sk-test" }

/-- A valid local-mode request for a video file. -/
def A_CLIP : Args := { A_LOCAL with file := some "clip.mp4" }

/-- A second valid local-mode request for a different video file. -/
def A_CLIP2 : Args := { A_LOCAL with file := some "other.mp4" }

/-- C1: the claim that every valid transcription request ends with exactly one
terminal result or error message fails on the code.  For a valid cloud-mode
request whose remote transcription succeeds, `transcribe_cloud` returns its
3-tuple, `main` line 824 unpacks it into four names, and the resulting
ValueError escapes (the `try` has only a `finally`): the process dies with a
traceback, exit status 1, and zero terminal messages on the channel. -/
theorem C1_cloud_success_emits_no_terminal :
    terminalCount (main A_CLOUD W0).1 = 0 ∧
    (main A_CLOUD W0).2.uncaught = true ∧
    (main A_CLOUD W0).2.exitCode = 1 := by decide

/-- C2: counterexample to the claim that every failure is converted to
exactly one terminal error message.  With `--device-mode compatibility` the
selected device is already "cpu", so a failing `WhisperModel` call is
re-raised (transcriber.py line 569); `main` has no `except` clause and no
InternalError fallback exists, so the process terminates with a nonzero
status and no error message at all. -/
theorem C2_unclassified_failure_emits_no_error :
    (main A_LOCAL W_CPUFAIL).2.uncaught = true ∧
    (main A_LOCAL W_CPUFAIL).2.exitCode = 1 ∧
    errorCount (main A_LOCAL W_CPUFAIL).1 = 0 := by decide

/-- C3: the claim that a successful local-mode session emits a terminal
result with empty text and the metrics fails on the code.  The session below
succeeds and streams its segment (id 0), but `transcribe_local` returns empty
text and `main` line 831 guards the result behind `if text:`, so no result
message (and no metrics) is ever emitted; the process exits 0 silently. -/
theorem C3_local_success_emits_no_result :
    resultCount (main A_LOCAL W0).1 = 0 ∧
    errorCount (main A_LOCAL W0).1 = 0 ∧
    segIds (main A_LOCAL W0).1 = [0] ∧
    (main A_LOCAL W0).2.exitCode = 0 ∧
    (main A_LOCAL W0).2.uncaught = false := by decide

/-- C4: counterexample to the claim that the controller never retries the
same tier twice and surfaces a fatal DeviceError when Compatibility fails.
Starting from Performance with every `WhisperModel` call failing, the code
attempts ("cuda","float16"), then ("cpu","int8"), then ("cpu","int8") again
(the unguarded retry of transcriber.py lines 563-567) - the Compatibility
tier twice - and when that also fails no error message is emitted: the
exception escapes. -/
theorem C4_compatibility_tier_attempted_twice :
    (deviceSelect ENV0 LE_GPUFAIL DeviceMode.performance).attempts =
      [("cuda", "float16"), ("cpu", "int8"), ("cpu", "int8")] ∧
    (deviceSelect ENV0 LE_GPUFAIL DeviceMode.performance).out =
      (FOut.exn : FOut (String × String)) ∧
    errorCount (deviceSelect ENV0 LE_GPUFAIL DeviceMode.performance).msgs = 0 := by decide

/-- C8: counterexample to the claim that the temporary normalized-audio file
is removed on every non-forced exit path.  When FFmpeg fails after creating
its output file, `extract_audio` calls `send_error` (a handled error: one
error message, exit 1), but the SystemExit is raised at transcriber.py line
805, before the `try/finally`, so the temporary file is still present when
the process exits. -/
theorem C8_extraction_failure_leaves_temp_file :
    errorCount (main A_CLIP W_FFFAIL).1 = 1 ∧
    (main A_CLIP W_FFFAIL).2.exitCode = 1 ∧
    (main A_CLIP W_FFFAIL).2.uncaught = false ∧
    (main A_CLIP W_FFFAIL).2.tempExists = true := by decide

/-- C9: counterexample to the claim that two video-input invocations never
compute the same temporary path.  The path is a constant, the fixed name
echoscribe_temp_audio.wav joined to the system temp directory
(transcriber.py line 803): two invocations on different input files compute
exactly the same path. -/
theorem C9_two_invocations_share_temp_path :
    (main A_CLIP W0).2.tempPath = some "/tmp/echoscribe_temp_audio.wav" ∧
    (main A_CLIP2 W0).2.tempPath = some "/tmp/echoscribe_temp_audio.wav" ∧
    A_CLIP.file ≠ A_CLIP2.file := by decide

/-- C5: for every segment consumed from the local engine with total duration
d > 0, elapsed wall time t > 0 and a nonnegative segment end e, the progress
percent computed and emitted for the segment is min(40 + floor((e/d)*55), 95)
(Python `int()` truncation agrees with floor on these nonnegative values),
the speed factor is e/t, and the estimated time remaining is (d - e) divided
by the speed factor when the latter is positive and 0 otherwise; the loop
emits exactly these values, the speed and etr rounded to 2 and 0 digits. -/
theorem C5_segment_progress_speed_etr (e d t : ℚ) (hd : 0 < d) (ht : 0 < t)
    (he : 0 ≤ e) :
    segmentProgress e d = min (40 + ⌊e / d * 55⌋) 95 ∧
    (segmentStats e d t).1 = e / t ∧
    (segmentStats e d t).2 = (if 0 < e / t then (d - e) / (e / t) else 0) ∧
    (∀ (env : SysEnv) (elapsedAt : ℕ → ℚ) (k : ℕ) (s : EngineSeg)
        (rest : List EngineSeg), s.stop = e → elapsedAt k = t →
      localLoop env d elapsedAt k (s :: rest) =
        Event.emit (Msg.segment k s.start e s.text) ::
          Event.emit (Msg.progress (min (40 + ⌊e / d * 55⌋) 95)
            (MsgText.transcriptionAvancement (pyTrunc e) (pyTrunc d))
            Stage.transcribing (some (pyRound (e / t) 2))
            (some (pyRound (if 0 < e / t then (d - e) / (e / t) else 0) 0))
            (get_system_stats env)) ::
          localLoop env d elapsedAt (k + 1) rest) := by
  have hprog : segmentProgress e d = min (40 + ⌊e / d * 55⌋) 95 := by
    have h0 : (0 : ℚ) ≤ e / d * 55 := by positivity
    simp [segmentProgress, pyTrunc, h0]
  have hspeed : (segmentStats e d t).1 = e / t := by
    simp [segmentStats, ht]
  have hetr : (segmentStats e d t).2 = (if 0 < e / t then (d - e) / (e / t) else 0) := by
    simp [segmentStats, ht]
  refine ⟨hprog, hspeed, hetr, ?_⟩
  intro env elapsedAt k s rest hs hk
  subst hs
  simp [localLoop, send_progress, hk, hprog, hspeed, hetr]

/-- C5 witness: the theorem applied at e = 10, d = 100, t = 5. -/
theorem C5_witness :
    (0 : ℚ) < 100 ∧ (0 : ℚ) < 5 ∧ (0 : ℚ) ≤ 10 ∧
    (segmentProgress 10 100 = min (40 + ⌊(10 : ℚ) / 100 * 55⌋) 95 ∧
      (segmentStats 10 100 5).1 = 10 / 5 ∧
      (segmentStats 10 100 5).2 =
        (if (0 : ℚ) < 10 / 5 then (100 - 10) / (10 / 5) else 0) ∧
      (∀ (env : SysEnv) (elapsedAt : ℕ → ℚ) (k : ℕ) (s : EngineSeg)
          (rest : List EngineSeg), s.stop = 10 → elapsedAt k = 5 →
        localLoop env 100 elapsedAt k (s :: rest) =
          Event.emit (Msg.segment k s.start 10 s.text) ::
            Event.emit (Msg.progress (min (40 + ⌊(10 : ℚ) / 100 * 55⌋) 95)
              (MsgText.transcriptionAvancement (pyTrunc 10) (pyTrunc 100))
              Stage.transcribing (some (pyRound ((10 : ℚ) / 5) 2))
              (some (pyRound (if (0 : ℚ) < 10 / 5 then (100 - 10) / (10 / 5) else 0) 0))
              (get_system_stats env)) ::
            localLoop env 100 elapsedAt (k + 1) rest)) :=
  ⟨by norm_num, by norm_num, by norm_num,
    C5_segment_progress_speed_etr 10 100 5 (by norm_num) (by norm_num) (by norm_num)⟩

/-- C6: a cloud-path input whose size exceeds 25 MiB (with the openai package
importable, so that the size check is reached) is rejected with the
size-limit error as the final message, the function exits with status 1, and
no network call occurs in the trace. -/
theorem C6_oversize_rejected_before_network (env : SysEnv) (ce : CloudEnv)
    (api_key : String) (language : Option String) (translate : Bool)
    (hinst : ce.openaiInstalled = true) (hsize : 25 * 2 ^ 20 < ce.fileSize) :
    (transcribe_cloud env ce api_key language translate).2 = FOut.exit 1 ∧
    lastEvent (transcribe_cloud env ce api_key language translate).1 =
      some (Event.emit (Msg.error ErrMsg.fichierTropVolumineux)) ∧
    Event.networkCall ∉ (transcribe_cloud env ce api_key language translate).1 ∧
    errorCount (transcribe_cloud env ce api_key language translate).1 = 1 := by
  have hsz : 25 * 1024 * 1024 < ce.fileSize := by norm_num at hsize ⊢; exact hsize
  simp [transcribe_cloud, hinst, hsz, send_progress, lastEvent, errorCount,
    isErrorEvent]

/-- C6 witness: a 28 MB file with the openai package present. -/
theorem C6_witness :
    ({ openaiInstalled := true, fileSize := 29360128, api := CloudApi.errOther "x" }
        : CloudEnv).openaiInstalled = true ∧
    25 * 2 ^ 20 <
      ({ openaiInstalled := true, fileSize := 29360128, api := CloudApi.errOther "x" }
        : CloudEnv).fileSize ∧
    ((transcribe_cloud ENV0
        { openaiInstalled := true, fileSize := 29360128, api := CloudApi.errOther "x" }
        "sk-test" none false).2 = FOut.exit 1 ∧
      lastEvent (transcribe_cloud ENV0
        { openaiInstalled := true, fileSize := 29360128, api := CloudApi.errOther "x" }
        "sk-test" none false).1 =
        some (Event.emit (Msg.error ErrMsg.fichierTropVolumineux)) ∧
      Event.networkCall ∉ (transcribe_cloud ENV0
        { openaiInstalled := true, fileSize := 29360128, api := CloudApi.errOther "x" }
        "sk-test" none false).1 ∧
      errorCount (transcribe_cloud ENV0
        { openaiInstalled := true, fileSize := 29360128, api := CloudApi.errOther "x" }
        "sk-test" none false).1 = 1) :=
  ⟨rfl, by norm_num,
    C6_oversize_rejected_before_network ENV0
      { openaiInstalled := true, fileSize := 29360128, api := CloudApi.errOther "x" }
      "sk-test" none false rfl (by norm_num)⟩

/-- C10: every call to `send_progress` (the shadowing definition at
transcriber.py lines 192-214) emits exactly one progress message; the speed
and etr fields of the emitted message equal the corresponding arguments (so
each is present exactly when its argument is not None), and when
`get_system_stats` raises (psutil missing, hence a NameError) the
system_stats field is omitted. -/
theorem C10_send_progress_single_message (env : SysEnv) (p : ℤ) (m : MsgText)
    (st : Stage) (speed etr : Option ℚ) :
    ∃ pm, send_progress env p m st speed etr = [Event.emit pm] ∧
      msgSpeed pm = speed ∧ (msgSpeed pm).isSome = speed.isSome ∧
      msgEtr pm = etr ∧ (msgEtr pm).isSome = etr.isSome ∧
      (get_system_stats env = none → msgSysStats pm = none) :=
  ⟨Msg.progress p m st speed etr (get_system_stats env),
    rfl, rfl, rfl, rfl, rfl, fun h => h⟩

/-- C10 witness: the theorem applied with psutil absent, the case in which
`get_system_stats` raises and the system_stats field is omitted. -/
theorem C10_witness :
    ∃ pm, send_progress
        { has_psutil := false, ram_used := 0, ram_total := 0, has_nvml := false
          nvml_ok := false, vram_used := 0, vram_total := 0 }
        50 MsgText.transcriptionEnCours Stage.transcribing (some 2) none =
        [Event.emit pm] ∧
      msgSpeed pm = some 2 ∧ (msgSpeed pm).isSome = (some (2 : ℚ)).isSome ∧
      msgEtr pm = none ∧ (msgEtr pm).isSome = (none : Option ℚ).isSome ∧
      (get_system_stats
          { has_psutil := false, ram_used := 0, ram_total := 0, has_nvml := false
            nvml_ok := false, vram_used := 0, vram_total := 0 } = none →
        msgSysStats pm = none) :=
  C10_send_progress_single_message
    { has_psutil := false, ram_used := 0, ram_total := 0, has_nvml := false
      nvml_ok := false, vram_used := 0, vram_total := 0 }
    50 MsgText.transcriptionEnCours Stage.transcribing (some 2) none

@[simp] lemma segIds_nil : segIds [] = [] := rfl

@[simp] lemma segIds_progress_cons (p m st sp etr ss t) :
    segIds (Event.emit (Msg.progress p m st sp etr ss) :: t) = segIds t := rfl

@[simp] lemma segIds_segment_cons (i a b s t) :
    segIds (Event.emit (Msg.segment i a b s) :: t) = i :: segIds t := rfl

@[simp] lemma segIds_result_cons (x sg dl mt t) :
    segIds (Event.emit (Msg.result x sg dl mt) :: t) = segIds t := rfl

@[simp] lemma segIds_error_cons (e t) :
    segIds (Event.emit (Msg.error e) :: t) = segIds t := rfl

@[simp] lemma segIds_models_cons (t) :
    segIds (Event.emit Msg.models_list :: t) = segIds t := rfl

@[simp] lemma segIds_dlprog_cons (m p x t) :
    segIds (Event.emit (Msg.download_progress m p x) :: t) = segIds t := rfl

@[simp] lemma segIds_dlcomp_cons (m t) :
    segIds (Event.emit (Msg.download_complete m) :: t) = segIds t := rfl

@[simp] lemma segIds_network_cons (t) :
    segIds (Event.networkCall :: t) = segIds t := rfl

@[simp] lemma segIds_append (a b : List Event) :
    segIds (a ++ b) = segIds a ++ segIds b := by
  simp [segIds, List.filterMap_append]

@[simp] lemma errorCount_nil : errorCount [] = 0 := rfl

@[simp] lemma errorCount_progress_cons (p m st sp etr ss t) :
    errorCount (Event.emit (Msg.progress p m st sp etr ss) :: t) = errorCount t := rfl

@[simp] lemma errorCount_segment_cons (i a b s t) :
    errorCount (Event.emit (Msg.segment i a b s) :: t) = errorCount t := rfl

@[simp] lemma errorCount_result_cons (x sg dl mt t) :
    errorCount (Event.emit (Msg.result x sg dl mt) :: t) = errorCount t := rfl

@[simp] lemma errorCount_error_cons (e t) :
    errorCount (Event.emit (Msg.error e) :: t) = errorCount t + 1 := rfl

@[simp] lemma errorCount_models_cons (t) :
    errorCount (Event.emit Msg.models_list :: t) = errorCount t := rfl

@[simp] lemma errorCount_dlprog_cons (m p x t) :
    errorCount (Event.emit (Msg.download_progress m p x) :: t) = errorCount t := rfl

@[simp] lemma errorCount_dlcomp_cons (m t) :
    errorCount (Event.emit (Msg.download_complete m) :: t) = errorCount t := rfl

@[simp] lemma errorCount_network_cons (t) :
    errorCount (Event.networkCall :: t) = errorCount t := rfl

@[simp] lemma errorCount_append (a b : List Event) :
    errorCount (a ++ b) = errorCount a + errorCount b := by
  simp [errorCount, List.filter_append]

lemma lastEvent_append_of_some (a b : List Event) (x : Event)
    (h : lastEvent b = some x) : lastEvent (a ++ b) = some x := by
  unfold lastEvent at *
  rw [List.reverse_append]
  cases hb : b.reverse with
  | nil => simp [hb] at h
  | cons y t => rw [hb] at h; simpa using h

lemma lastEvent_cons_of_some (y : Event) (b : List Event) (x : Event)
    (h : lastEvent b = some x) : lastEvent (y :: b) = some x :=
  lastEvent_append_of_some [y] b x h

lemma deviceSelect_msgs_clean (env : SysEnv) (le : LocalEnv) (dm : DeviceMode) :
    segIds (deviceSelect env le dm).msgs = [] ∧
    errorCount (deviceSelect env le dm).msgs = 0 := by
  cases dm <;> cases h0 : le.initOk 0 <;> cases h1 : le.initOk 1 <;>
    cases h2 : le.initOk 2 <;> cases ht : le.torchImported <;>
      cases hc : le.cudaAvailable <;>
        simp [deviceSelect, deviceParams, segIds, errorCount, isErrorEvent,
          send_progress, h0, h1, h2, ht, hc]

lemma segIds_localLoop (env : SysEnv) (d : ℚ) (el : ℕ → ℚ) :
    ∀ (k : ℕ) (segs : List EngineSeg),
      segIds (localLoop env d el k segs) = List.range' k segs.length := by
  intro k segs
  induction segs generalizing k with
  | nil => simp [localLoop, List.range']
  | cons s rest ih => simp [localLoop, send_progress, List.range', ih]

lemma errorCount_localLoop (env : SysEnv) (d : ℚ) (el : ℕ → ℚ) :
    ∀ (k : ℕ) (segs : List EngineSeg), errorCount (localLoop env d el k segs) = 0 := by
  intro k segs
  induction segs generalizing k with
  | nil => rfl
  | cons s rest ih => simp [localLoop, send_progress, ih]

/-- C7: in every local transcription run, the ids carried by the emitted
segment messages are exactly 0, 1, 2, ... with no gaps: the segment
ids of the trace form an initial segment of the naturals (`segment_count` starts at 0 at
transcriber.py line 595 and is the id of each streamed segment). -/
theorem C7_segment_ids_contiguous (env : SysEnv) (le : LocalEnv)
    (model_name : String) (language : Option String) (translate : Bool)
    (custom_model_path : Option String) (dm : DeviceMode) :
    ∃ n, segIds
        (transcribe_local env le model_name language translate custom_model_path dm).1 =
      List.range n := by
  cases hfw : le.fwInstalled with
  | false => exact ⟨0, by simp [transcribe_local, hfw]⟩
  | true =>
    rcases hds : (deviceSelect env le dm).out with a | c | _
    · refine ⟨le.segs.length, ?_⟩
      simp [transcribe_local, hfw, hds, (deviceSelect_msgs_clean env le dm).1,
        segIds_localLoop, send_progress, List.range_eq_range']
    · exact ⟨0, by
        simp [transcribe_local, hfw, hds, (deviceSelect_msgs_clean env le dm).1,
          send_progress]⟩
    · exact ⟨0, by
        simp [transcribe_local, hfw, hds, (deviceSelect_msgs_clean env le dm).1,
          send_progress]⟩

/-- C4 (amended): the device configuration only ever moves forward in the
tier order (GPU tiers before the CPU tier, never backward); at most three
initialization attempts occur; every attempt after the first is the
Compatibility configuration ("cpu", "int8") - which is therefore attempted
TWICE when the second attempt fails, the unguarded retry of transcriber.py
lines 563-567; whenever a second attempt happens, a progress message
announcing the GPU-to-CPU downgrade was emitted; whenever a GPU-mode request
starts directly on the CPU configuration (torch reported CUDA unavailable), a
progress message announcing that downgrade was emitted; and when the final
CPU attempt fails the exception escapes with no DeviceError message emitted
at all. -/
theorem C4_amended_device_fallback (env : SysEnv) (le : LocalEnv) (dm : DeviceMode) :
    List.Chain' (fun a b => tierIdx a ≤ tierIdx b) (deviceSelect env le dm).attempts ∧
    (deviceSelect env le dm).attempts.length ≤ 3 ∧
    (∀ a ∈ (deviceSelect env le dm).attempts.tail, a = ("cpu", "int8")) ∧
    (2 ≤ (deviceSelect env le dm).attempts.length →
      Event.emit (Msg.progress 35 MsgText.erreurGpu Stage.transcribing none none
        (get_system_stats env)) ∈ (deviceSelect env le dm).msgs) ∧
    ((deviceSelect env le dm).attempts.head? = some ("cpu", "int8") →
        dm ≠ DeviceMode.compatibility →
      Event.emit (Msg.progress 32 MsgText.gpuNonDisponible Stage.transcribing none none
        (get_system_stats env)) ∈ (deviceSelect env le dm).msgs) ∧
    ((deviceSelect env le dm).out = FOut.exn →
      errorCount (deviceSelect env le dm).msgs = 0) := by
  cases dm <;> cases h0 : le.initOk 0 <;> cases h1 : le.initOk 1 <;>
    cases h2 : le.initOk 2 <;> cases ht : le.torchImported <;>
      cases hc : le.cudaAvailable <;>
        simp [deviceSelect, deviceParams, send_progress, tierIdx,
          h0, h1, h2, ht, hc]

/-- C4 witness: the amended theorem applied at the all-failing GPU run. -/
theorem C4_amended_witness :
    List.Chain' (fun a b => tierIdx a ≤ tierIdx b)
      (deviceSelect ENV0 LE_GPUFAIL DeviceMode.performance).attempts ∧
    (deviceSelect ENV0 LE_GPUFAIL DeviceMode.performance).attempts.length ≤ 3 ∧
    (∀ a ∈ (deviceSelect ENV0 LE_GPUFAIL DeviceMode.performance).attempts.tail,
      a = ("cpu", "int8")) ∧
    (2 ≤ (deviceSelect ENV0 LE_GPUFAIL DeviceMode.performance).attempts.length →
      Event.emit (Msg.progress 35 MsgText.erreurGpu Stage.transcribing none none
        (get_system_stats ENV0)) ∈ (deviceSelect ENV0 LE_GPUFAIL DeviceMode.performance).msgs) ∧
    ((deviceSelect ENV0 LE_GPUFAIL DeviceMode.performance).attempts.head? =
        some ("cpu", "int8") → DeviceMode.performance ≠ DeviceMode.compatibility →
      Event.emit (Msg.progress 32 MsgText.gpuNonDisponible Stage.transcribing none none
        (get_system_stats ENV0)) ∈ (deviceSelect ENV0 LE_GPUFAIL DeviceMode.performance).msgs) ∧
    ((deviceSelect ENV0 LE_GPUFAIL DeviceMode.performance).out = FOut.exn →
      errorCount (deviceSelect ENV0 LE_GPUFAIL DeviceMode.performance).msgs = 0) :=
  C4_amended_device_fallback ENV0 LE_GPUFAIL DeviceMode.performance

/-- Error discipline of a modelled function: a SystemExit raised by
`send_error` carries code 1 and its trace holds exactly one error message,
which is the last event; a normal return or an escaping exception leaves a
trace with no error message at all. -/
def ErrShape {α : Type} (t : List Event) (o : FOut α) : Prop :=
  match o with
  | FOut.ret _ => errorCount t = 0
  | FOut.exit c =>
    c = 1 ∧ errorCount t = 1 ∧ ∃ e, lastEvent t = some (Event.emit (Msg.error e))
  | FOut.exn => errorCount t = 0

lemma deviceSelect_out_ne_exit (env : SysEnv) (le : LocalEnv) (dm : DeviceMode)
    (c : ℕ) : (deviceSelect env le dm).out ≠ FOut.exit c := by
  cases dm <;> cases h0 : le.initOk 0 <;> cases h1 : le.initOk 1 <;>
    cases h2 : le.initOk 2 <;> cases ht : le.torchImported <;>
      cases hc : le.cudaAvailable <;>
        simp [deviceSelect, deviceParams, h0, h1, h2, ht, hc]

lemma errShape_extract (env : SysEnv) (ff : FfmpegOutcome) :
    ErrShape ( extract_audio env ff).msgs ( extract_audio env ff).out := by
  cases ff with
  | ok => simp [ extract_audio, ErrShape, send_progress]
  | fail diag created =>
    by_cases hd : ffmpegMissingDiag diag = true <;>
      simp [ extract_audio, ErrShape, send_progress, lastEvent, hd]
  | binaryMissing => simp [ extract_audio, ErrShape, send_progress, lastEvent]
  | raisedOther => simp [ extract_audio, ErrShape, send_progress, lastEvent]

lemma errShape_local (env : SysEnv) (le : LocalEnv) (model_name : String)
    (language : Option String) (translate : Bool) (custom_model_path : Option String)
    (dm : DeviceMode) :
    ErrShape (transcribe_local env le model_name language translate custom_model_path dm).1
      (transcribe_local env le model_name language translate custom_model_path dm).2 := by
  cases hfw : le.fwInstalled with
  | false => simp [transcribe_local, hfw, ErrShape, lastEvent]
  | true =>
    rcases hds : (deviceSelect env le dm).out with a | c | _
    · simp [transcribe_local, hfw, hds, ErrShape, send_progress,
        (deviceSelect_msgs_clean env le dm).2, errorCount_localLoop]
    · exact absurd hds (deviceSelect_out_ne_exit env le dm c)
    · simp [transcribe_local, hfw, hds, ErrShape, send_progress,
        (deviceSelect_msgs_clean env le dm).2]

lemma errShape_cloud (env : SysEnv) (ce : CloudEnv) (api_key : String)
    (language : Option String) (translate : Bool) :
    ErrShape (transcribe_cloud env ce api_key language translate).1
      (transcribe_cloud env ce api_key language translate).2 := by
  cases hoi : ce.openaiInstalled with
  | false => simp [transcribe_cloud, hoi, ErrShape, lastEvent]
  | true =>
    by_cases hsz : 25 * 1024 * 1024 < ce.fileSize
    · simp [transcribe_cloud, hoi, hsz, ErrShape, send_progress, lastEvent]
    · cases hapi : ce.api <;>
        simp [transcribe_cloud, hoi, hsz, hapi, ErrShape, send_progress, lastEvent]

lemma errShape_download (de : DownloadEnv) (model_name : String) :
    ErrShape (download_model de model_name).1 (download_model de model_name).2 := by
  cases hh : de.hubInstalled with
  | false => simp [download_model, hh, ErrShape, send_download_progress, lastEvent]
  | true =>
    cases hsnap : de.snapshotOk with
    | none =>
      simp [download_model, hh, hsnap, ErrShape, send_download_progress, lastEvent]
    | some p =>
      cases hv : de.verifyOk <;>
        simp [download_model, hh, hsnap, hv, ErrShape, send_download_progress, lastEvent]

/-- C2 (amended): every failure detected at a `send_error` classification
site produces exactly one terminal error message - the last event of the
trace - and SystemExit status 1, and a run never emits more than one error
message; but there is no generic InternalError fallback: a failure that
escapes as an exception (local model initialization failing on the CPU
device, any exception in the transcription step, and the 3-into-4 tuple
unpacking of the cloud path) terminates the process with a nonzero status and
NO error message on the channel. -/
theorem C2_amended_classified_failures (args : Args) (w : World) :
    errorCount (main args w).1 ≤ 1 ∧
    ((main args w).2.uncaught = true →
      errorCount (main args w).1 = 0 ∧ (main args w).2.exitCode = 1) ∧
    ((main args w).2.uncaught = false →
      (errorCount (main args w).1 = 1 ↔ (main args w).2.exitCode = 1)) ∧
    (errorCount (main args w).1 = 1 →
      ∃ e, lastEvent (main args w).1 = some (Event.emit (Msg.error e))) := by
  obtain ⟨fileO, modeO, model, cmp, keyO, lang, trf, lm, dlm, dmode⟩ := args
  cases lm with
  | true => simp [main, lastEvent]
  | false =>
  cases dlm with
  | some m =>
    have hs := errShape_download w.de m
    rcases hdl : (download_model w.de m).2 with u | c | _
    · rw [hdl] at hs
      simp only [ErrShape] at hs
      simp [main, hdl, hs]
    · rw [hdl] at hs
      obtain ⟨hc1, hcnt, e, hlast⟩ := hs
      subst hc1
      refine ⟨?_, ?_, ?_, ?_⟩ <;> simp only [main, hdl]
      · simp [hcnt]
      · simp
      · simp [hcnt]
      · exact fun _ => ⟨e, hlast⟩
    · rw [hdl] at hs
      simp only [ErrShape] at hs
      simp [main, hdl, hs]
  | none =>
  cases fileO with
  | none => simp [main, lastEvent]
  | some file =>
  cases modeO with
  | none => simp [main, lastEvent]
  | some mode =>
  cases hfe : w.fileExists with
  | false => simp [main, hfe, lastEvent]
  | true =>
  by_cases hfmt : pathSuffixLower file ∈ ALL_FORMATS
  case neg => simp [main, hfe, hfmt, lastEvent]
  case pos =>
  by_cases hck : mode = Mode.cloudMode ∧ keyO = none
  case pos => simp [main, hfe, hfmt, hck, lastEvent]
  case neg =>
  by_cases hv : pathSuffixLower file ∈ VIDEO_FORMATS
  case pos =>
    have hxs := errShape_extract w.env w.ffmpeg
    rcases hxo : ( extract_audio w.env w.ffmpeg).out with b | c | _
    · rw [hxo] at hxs
      simp only [ErrShape] at hxs
      cases mode with
      | localMode =>
        have hts := errShape_local w.env w.le model
          (if lang = "auto" then none else some lang) trf cmp dmode
        rcases hto : (transcribe_local w.env w.le model
            (if lang = "auto" then none else some lang) trf cmp dmode).2 with r | c | _
        · rw [hto] at hts
          simp only [ErrShape] at hts
          by_cases hrt : r.text = "" <;>
            simp [main, hfe, hfmt, hck, hv, hxo, hto, hxs, hts, hrt, send_progress]
        · rw [hto] at hts
          obtain ⟨hc1, hcnt, e, hlast⟩ := hts
          subst hc1
          refine ⟨?_, ?_, ?_, ?_⟩ <;>
            simp [main, hfe, hfmt, hck, hv, hxo, hto, hxs, hcnt, send_progress]
          exact ⟨e, lastEvent_cons_of_some _ _ _ (lastEvent_append_of_some _ _ _ hlast)⟩
        · rw [hto] at hts
          simp only [ErrShape] at hts
          simp [main, hfe, hfmt, hck, hv, hxo, hto, hxs, hts, send_progress]
      | cloudMode =>
        have hkey : ¬keyO = none := fun h => hck ⟨rfl, h⟩
        have hts := errShape_cloud w.env w.ce (keyO.getD "")
          (if lang = "auto" then none else some lang) trf
        rcases hto : (transcribe_cloud w.env w.ce (keyO.getD "")
            (if lang = "auto" then none else some lang) trf).2 with r | c | _
        · rw [hto] at hts
          simp only [ErrShape] at hts
          simp [main, hfe, hfmt, hck, hkey, hv, hxo, hto, hxs, hts, send_progress]
        · rw [hto] at hts
          obtain ⟨hc1, hcnt, e, hlast⟩ := hts
          subst hc1
          refine ⟨?_, ?_, ?_, ?_⟩ <;>
            simp [main, hfe, hfmt, hck, hkey, hv, hxo, hto, hxs, hcnt, send_progress]
          exact ⟨e, lastEvent_cons_of_some _ _ _ (lastEvent_append_of_some _ _ _ hlast)⟩
        · rw [hto] at hts
          simp only [ErrShape] at hts
          simp [main, hfe, hfmt, hck, hkey, hv, hxo, hto, hxs, hts, send_progress]
    · rw [hxo] at hxs
      obtain ⟨hc1, hcnt, e, hlast⟩ := hxs
      subst hc1
      refine ⟨?_, ?_, ?_, ?_⟩ <;>
        simp [main, hfe, hfmt, hck, hv, hxo, hcnt, send_progress]
      exact ⟨e, lastEvent_cons_of_some _ _ _ hlast⟩
    · rw [hxo] at hxs
      simp only [ErrShape] at hxs
      simp [main, hfe, hfmt, hck, hv, hxo, hxs, send_progress]
  case neg =>
    cases mode with
    | localMode =>
      have hts := errShape_local w.env w.le model
        (if lang = "auto" then none else some lang) trf cmp dmode
      rcases hto : (transcribe_local w.env w.le model
          (if lang = "auto" then none else some lang) trf cmp dmode).2 with r | c | _
      · rw [hto] at hts
        simp only [ErrShape] at hts
        by_cases hrt : r.text = "" <;>
          simp [main, hfe, hfmt, hck, hv, hto, hts, hrt, send_progress]
      · rw [hto] at hts
        obtain ⟨hc1, hcnt, e, hlast⟩ := hts
        subst hc1
        refine ⟨?_, ?_, ?_, ?_⟩ <;>
          simp [main, hfe, hfmt, hck, hv, hto, hcnt, send_progress]
        exact ⟨e, lastEvent_cons_of_some _ _ _ hlast⟩
      · rw [hto] at hts
        simp only [ErrShape] at hts
        simp [main, hfe, hfmt, hck, hv, hto, hts, send_progress]
    | cloudMode =>
      have hkey : ¬keyO = none := fun h => hck ⟨rfl, h⟩
      have hts := errShape_cloud w.env w.ce (keyO.getD "")
        (if lang = "auto" then none else some lang) trf
      rcases hto : (transcribe_cloud w.env w.ce (keyO.getD "")
          (if lang = "auto" then none else some lang) trf).2 with r | c | _
      · rw [hto] at hts
        simp only [ErrShape] at hts
        simp [main, hfe, hfmt, hck, hkey, hv, hto, hts, send_progress]
      · rw [hto] at hts
        obtain ⟨hc1, hcnt, e, hlast⟩ := hts
        subst hc1
        refine ⟨?_, ?_, ?_, ?_⟩ <;>
          simp [main, hfe, hfmt, hck, hkey, hv, hto, hcnt, send_progress]
        exact ⟨e, lastEvent_cons_of_some _ _ _ hlast⟩
      · rw [hto] at hts
        simp only [ErrShape] at hts
        simp [main, hfe, hfmt, hck, hkey, hv, hto, hts, send_progress]

/-- C2 witness: the amended theorem applied at the failing-CPU run that is
the counterexample to the original claim. -/
theorem C2_amended_witness :
    errorCount (main A_LOCAL W_CPUFAIL).1 ≤ 1 ∧
    ((main A_LOCAL W_CPUFAIL).2.uncaught = true →
      errorCount (main A_LOCAL W_CPUFAIL).1 = 0 ∧
        (main A_LOCAL W_CPUFAIL).2.exitCode = 1) ∧
    ((main A_LOCAL W_CPUFAIL).2.uncaught = false →
      (errorCount (main A_LOCAL W_CPUFAIL).1 = 1 ↔
        (main A_LOCAL W_CPUFAIL).2.exitCode = 1)) ∧
    (errorCount (main A_LOCAL W_CPUFAIL).1 = 1 →
      ∃ e, lastEvent (main A_LOCAL W_CPUFAIL).1 = some (Event.emit (Msg.error e))) :=
  C2_amended_classified_failures A_LOCAL W_CPUFAIL

/-- C8 (amended): on every non-forced exit path that is reached after audio
extraction has succeeded - success, handled error and handled exception in
the transcription step - the temporary file is removed by the `finally`
handler (assuming `os.remove` itself succeeds), so it is absent after the
process exits; this also covers audio inputs, which create no temporary
file.  (When extraction itself fails the cleanup does not run, which is the
counterexample to the original claim.) -/
theorem C8_amended_cleanup_when_extraction_succeeds (args : Args) (w : World)
    (hff : w.ffmpeg = FfmpegOutcome.ok) (hrm : w.removeOk = true) :
    (main args w).2.tempExists = false := by
  obtain ⟨fileO, modeO, model, cmp, keyO, lang, trf, lm, dlm, dmode⟩ := args
  cases lm with
  | true => simp [main]
  | false =>
  cases dlm with
  | some m => rcases hdl : (download_model w.de m).2 with u | c | _ <;> simp [main, hdl]
  | none =>
  cases fileO with
  | none => simp [main]
  | some file =>
  cases modeO with
  | none => simp [main]
  | some mode =>
  cases hfe : w.fileExists with
  | false => simp [main, hfe]
  | true =>
  by_cases hfmt : pathSuffixLower file ∈ ALL_FORMATS
  case neg => simp [main, hfe, hfmt]
  case pos =>
  by_cases hck : mode = Mode.cloudMode ∧ keyO = none
  case pos => simp [main, hfe, hfmt, hck]
  case neg =>
  by_cases hv : pathSuffixLower file ∈ VIDEO_FORMATS <;>
    cases mode with
  | localMode =>
    rcases hto : (transcribe_local w.env w.le model
        (if lang = "auto" then none else some lang) trf cmp dmode).2 with r | c | _
    · by_cases hrt : r.text = "" <;>
        simp [main, hfe, hfmt, hck, hv, hff, hto, hrt, extract_audio, send_progress, hrm]
    · simp [main, hfe, hfmt, hck, hv, hff, hto, extract_audio, send_progress, hrm]
    · simp [main, hfe, hfmt, hck, hv, hff, hto, extract_audio, send_progress, hrm]
  | cloudMode =>
    have hkey : ¬keyO = none := fun h => hck ⟨rfl, h⟩
    rcases hto : (transcribe_cloud w.env w.ce (keyO.getD "")
        (if lang = "auto" then none else some lang) trf).2 with r | c | _ <;>
      simp [main, hfe, hfmt, hck, hkey, hv, hff, hto, extract_audio, send_progress, hrm]

/-- C8 witness: the amended theorem at the successful video-input run. -/
theorem C8_amended_witness :
    W0.ffmpeg = FfmpegOutcome.ok ∧ W0.removeOk = true ∧
    (main A_CLIP W0).2.tempExists = false :=
  ⟨rfl, rfl, C8_amended_cleanup_when_extraction_succeeds A_CLIP W0 rfl rfl⟩

/-- C9 (amended): the temporary normalized-audio path is not unique per
invocation but a single fixed constant: whenever a run computes one at all,
it is the fixed name echoscribe_temp_audio.wav joined to the system temp
directory, independent of the input file and of every other argument - so any two
concurrent video-input invocations on the same system collide on it. -/
theorem C9_amended_temp_path_fixed (args : Args) (w : World) :
    (main args w).2.tempPath = none ∨
    (main args w).2.tempPath = some (os_path_join w.tmpdir "echoscribe_temp_audio.wav") := by
  obtain ⟨fileO, modeO, model, cmp, keyO, lang, trf, lm, dlm, dmode⟩ := args
  cases lm with
  | true => simp [main]
  | false =>
  cases dlm with
  | some m => rcases hdl : (download_model w.de m).2 with u | c | _ <;> simp [main, hdl]
  | none =>
  cases fileO with
  | none => simp [main]
  | some file =>
  cases modeO with
  | none => simp [main]
  | some mode =>
  cases hfe : w.fileExists with
  | false => simp [main, hfe]
  | true =>
  by_cases hfmt : pathSuffixLower file ∈ ALL_FORMATS
  case neg => simp [main, hfe, hfmt]
  case pos =>
  by_cases hck : mode = Mode.cloudMode ∧ keyO = none
  case pos => simp [main, hfe, hfmt, hck]
  case neg =>
  by_cases hv : pathSuffixLower file ∈ VIDEO_FORMATS <;>
    rcases hxo : ( extract_audio w.env w.ffmpeg).out with b | c | _ <;>
      cases mode with
  | localMode =>
    rcases hto : (transcribe_local w.env w.le model
        (if lang = "auto" then none else some lang) trf cmp dmode).2 with r | c | _
    · by_cases hrt : r.text = "" <;>
        simp [main, hfe, hfmt, hck, hv, hxo, hto, hrt, send_progress]
    · simp [main, hfe, hfmt, hck, hv, hxo, hto, send_progress]
    · simp [main, hfe, hfmt, hck, hv, hxo, hto, send_progress]
  | cloudMode =>
    have hkey : ¬keyO = none := fun h => hck ⟨rfl, h⟩
    rcases hto : (transcribe_cloud w.env w.ce (keyO.getD "")
        (if lang = "auto" then none else some lang) trf).2 with r | c | _ <;>
      simp [main, hfe, hfmt, hck, hkey, hv, hxo, hto, send_progress]

end EchoScribe
